import Mathlib

/-
Verification of the AI-response parsing and multi-category orchestration
pipeline of the ACC repository (src/engine/ai_content_generator.py,
src/engine/multi_category_generator.py, src/api.py).

Python strings are embedded as `List Char`; the Python string methods used by
the parsers (`strip`, `split(sep)`, `split()`, `replace`, `startswith`,
`in`, slicing, `join`) are reproduced below with Python semantics.
-/

/-- Characters treated as whitespace by Python `str.strip()` / `str.split()`
(the ASCII whitespace set). -/
def pyIsSpace (c : Char) : Bool :=
  c = ' ' || c = '\t' || c = '\n' || c = '\r' || c = '\x0b' || c = '\x0c'

/-- Python `s.strip()`: remove leading and trailing whitespace. -/
def pyStrip (s : List Char) : List Char :=
  List.rdropWhile pyIsSpace (List.dropWhile pyIsSpace s)

/-- Worker for `pySplitOn`: leftmost, non-overlapping occurrences of the
separator; `acc` is the part accumulated since the last separator.  The
`fuel` argument only makes the recursion structural: every step consumes at
least one character, so starting with `fuel = s.length` the zero-fuel case
is never reached. -/
def pySplitOnAux (sep : List Char) : Nat → List Char → List Char → List (List Char)
  | _, [], acc => [acc]
  | 0, s, acc => [acc ++ s]
  | fuel + 1, c :: rest, acc =>
    if sep.isPrefixOf (c :: rest) then
      acc :: pySplitOnAux sep fuel (rest.drop (sep.length - 1)) []
    else
      pySplitOnAux sep fuel rest (acc ++ [c])

/-- Python `s.split(sep)` for a non-empty separator: empty parts are kept. -/
def pySplitOn (sep s : List Char) : List (List Char) :=
  pySplitOnAux sep s.length s []

/-- Python `s.replace(old, new)` for a non-empty `old`. -/
def pyReplace (old new s : List Char) : List Char :=
  List.intercalate new (pySplitOn old s)

/-- Worker for `pyWords`. -/
def pyWordsAux : List Char → List Char → List (List Char)
  | [], acc => if acc = [] then [] else [acc]
  | c :: rest, acc =>
    if pyIsSpace c then
      if acc = [] then pyWordsAux rest [] else acc :: pyWordsAux rest []
    else
      pyWordsAux rest (acc ++ [c])

/-- Python `s.split()` with no argument: split on whitespace runs, dropping
empty tokens. -/
def pyWords (s : List Char) : List (List Char) :=
  pyWordsAux s []

/-- Python substring containment `needle in hay`. -/
def containsSub (needle : List Char) : List Char → Bool
  | [] => needle.isEmpty
  | c :: rest => needle.isPrefixOf (c :: rest) || containsSub needle rest

/-- A value stored in the result dict of the parsers: the `twitter_thread`
and `cta` slots can hold either a string or a list of strings, depending on
the order in which markers appear. -/
inductive PyVal where
  | str : List Char → PyVal
  | list : List (List Char) → PyVal
deriving DecidableEq

/-- Python truthiness test `not value` for a `PyVal`: empty string and empty
list are falsy. -/
def PyVal.falsy : PyVal → Bool
  | .str s => s.isEmpty
  | .list l => l.isEmpty

/-- The result dict built by `_parse_response` (both generators): one slot
per key. -/
structure GeneratedContent where
  topic : List Char
  category : List Char
  master_storyline : List Char
  youtube_script : List Char
  instagram_script : List Char
  twitter_thread : PyVal
  caption : List Char
  cta : PyVal
  hashtags : List (List Char)
deriving DecidableEq

/-- The value of the `current_section` loop variable when it is a section
name (`None` is modelled by `Option`). -/
inductive SectionKey where
  | master_storyline
  | youtube_script
  | instagram_script
  | twitter_thread
  | caption
  | cta
deriving DecidableEq

/-- The loop state of `_parse_response`: `current_section`,
`current_content`, and the result dict being filled. -/
structure ParseState where
  cur : Option SectionKey
  content : List (List Char)
  res : GeneratedContent
deriving DecidableEq

/-- `result[current_section] = v` for a string value `v`: assigning a string
to the `twitter_thread` or `cta` slot stores a `PyVal.str`. -/
def setStr (r : GeneratedContent) : SectionKey → List Char → GeneratedContent
  | .master_storyline, v => { r with master_storyline := v }
  | .youtube_script, v => { r with youtube_script := v }
  | .instagram_script, v => { r with instagram_script := v }
  | .twitter_thread, v => { r with twitter_thread := .str v }
  | .caption, v => { r with caption := v }
  | .cta, v => { r with cta := .str v }

def markCATEGORY : List Char := "CATEGORY:".data
def markSTORY : List Char := "MASTER_STORYLINE:".data
def markYT : List Char := "YOUTUBE_SCRIPT:".data
def markIG : List Char := "INSTAGRAM_SCRIPT:".data
def markTW : List Char := "TWITTER_THREAD:".data
def markCAPTION : List Char := "CAPTION:".data
def markCTA : List Char := "CTA:".data
def markHASH : List Char := "HASHTAGS:".data

def nl1 : List Char := "\n".data
def nl2 : List Char := "\n\n".data
def dash3 : List Char := "---".data
def hashChar : List Char := "#".data

def catNewTool : List Char := "new_tool_intro".data
def catTutorial : List Char := "tool_detailed_tutorial".data
def catTrendModel : List Char := "trending_ai_model".data
def catNews : List Char := "ai_trending_news".data
def catGithub : List Char := "github_open_source_repo".data
def catEngage : List Char := "instagram_engagement_content".data

def aiCta1 : List Char := "Follow for more!".data
def aiCta2 : List Char := "Share this post!".data
def aiCta3 : List Char := "Comment your thoughts!".data

def mCta1 : List Char := "Follow for more!".data
def mCta2 : List Char := "Share this!".data
def mCta3 : List Char := "Comment below!".data

def hAI : List Char := "#AI".data
def hTech : List Char := "#Tech".data
def hInnov : List Char := "#Innovation".data
def hViral : List Char := "#Viral".data
def hTrend : List Char := "#Trending".data

/-- `[t.strip() for t in s.split('---') if t.strip()]` — the post-processing
of a flushed TWITTER_THREAD or CTA buffer. -/
def splitSegments (s : List Char) : List (List Char) :=
  ((pySplitOn dash3 s).filter (fun t => !(pyStrip t).isEmpty)).map pyStrip

/-- `[h.strip() for h in t.split() if h.strip().startswith('#')]`. -/
def hashTokens (t : List Char) : List (List Char) :=
  ((pyWords t).filter (fun h => hashChar.isPrefixOf (pyStrip h))).map pyStrip

/-- The initial result dict of `AIContentGenerator._parse_response`. -/
def aiInit (topic : List Char) : GeneratedContent where
  topic := topic
  category := catNewTool
  master_storyline := []
  youtube_script := []
  instagram_script := []
  twitter_thread := .list []
  caption := []
  cta := .list []
  hashtags := []

/-- `if current_section and current_content: result[current_section] =
'\n\n'.join(current_content).strip()` (the generic flush of the single
category parser). -/
def flushStr (st : ParseState) : GeneratedContent :=
  match st.cur with
  | some k =>
    if st.content = [] then st.res
    else setStr st.res k (pyStrip (List.intercalate nl2 st.content))
  | none => st.res

/-- One iteration of the `AIContentGenerator._parse_response` loop over a
blank-line-separated paragraph block. -/
def aiStep (st : ParseState) (blockRaw : List Char) : ParseState :=
  let b := pyStrip blockRaw
  if markCATEGORY.isPrefixOf b then
    { st with res := { st.res with category := pyStrip (pyReplace markCATEGORY [] b) } }
  else if markSTORY.isPrefixOf b then
    { st with cur := some .master_storyline
              content := [pyStrip (pyReplace markSTORY [] b)] }
  else if markYT.isPrefixOf b then
    { cur := some .youtube_script
      content := [pyStrip (pyReplace markYT [] b)]
      res := flushStr st }
  else if markIG.isPrefixOf b then
    { cur := some .instagram_script
      content := [pyStrip (pyReplace markIG [] b)]
      res := flushStr st }
  else if markTW.isPrefixOf b then
    { cur := some .twitter_thread
      content := []
      res := flushStr st }
  else if markCAPTION.isPrefixOf b then
    let res :=
      if st.cur = some SectionKey.twitter_thread ∧ st.content ≠ [] then
        { st.res with twitter_thread := .list (splitSegments (List.intercalate nl2 st.content)) }
      else st.res
    { cur := some .caption
      content := [pyStrip (pyReplace markCAPTION [] b)]
      res := res }
  else if markCTA.isPrefixOf b then
    { cur := some .cta
      content := []
      res := flushStr st }
  else if markHASH.isPrefixOf b then
    let res :=
      if st.cur = some SectionKey.cta ∧ st.content ≠ [] then
        { st.res with cta := .list (splitSegments (List.intercalate nl2 st.content)) }
      else st.res
    { cur := none
      content := st.content
      res := { res with hashtags := hashTokens (pyStrip (pyReplace markHASH [] b)) } }
  else
    match st.cur with
    | some _ => { st with content := st.content ++ [b] }
    | none => st

/-- The post-loop flush of the last open section of
`AIContentGenerator._parse_response`. -/
def aiLast (st : ParseState) : GeneratedContent :=
  match st.cur with
  | none => st.res
  | some k =>
    if st.content = [] then st.res
    else
      match k with
      | .twitter_thread =>
        { st.res with twitter_thread := .list (splitSegments (List.intercalate nl2 st.content)) }
      | .cta =>
        { st.res with cta := .list (splitSegments (List.intercalate nl2 st.content)) }
      | _ => setStr st.res k (pyStrip (List.intercalate nl2 st.content))

/-- `if not result['master_storyline']: result['master_storyline'] = response[:500]`. -/
def aiFillStory (response : List Char) (r : GeneratedContent) : GeneratedContent :=
  if r.master_storyline = [] then { r with master_storyline := response.take 500 } else r

/-- `if not result['twitter_thread']: result['twitter_thread'] = [response[:280]]`. -/
def aiFillThread (response : List Char) (r : GeneratedContent) : GeneratedContent :=
  if r.twitter_thread.falsy then { r with twitter_thread := .list [response.take 280] } else r

/-- `if not result['cta']: result['cta'] = [...]` (fixed three-item default). -/
def aiFillCta (r : GeneratedContent) : GeneratedContent :=
  if r.cta.falsy then { r with cta := .list [aiCta1, aiCta2, aiCta3] } else r

/-- `if not result['hashtags']: result['hashtags'] = [...]` (fixed three-item default). -/
def aiFillHashtags (r : GeneratedContent) : GeneratedContent :=
  if r.hashtags = [] then { r with hashtags := [hAI, hTech, hInnov] } else r

/-- The backfill defaults at the end of `AIContentGenerator._parse_response`
(`# Ensure we have at least some content`), applied in source order. -/
def aiDefaults (response : List Char) (r : GeneratedContent) : GeneratedContent :=
  aiFillHashtags (aiFillCta (aiFillThread response (aiFillStory response r)))

/-- The marker-scanning loop of `AIContentGenerator._parse_response` before
the backfill defaults (blocks are the `response.split('\n\n')` paragraphs). -/
def aiCore (response topic : List Char) : GeneratedContent :=
  aiLast (List.foldl aiStep ⟨none, [], aiInit topic⟩ (pySplitOn nl2 response))

/-- `AIContentGenerator._parse_response(response, topic)`.  The `except`
branch of the Python function is unreachable (no statement of the `try` body
can raise), so only the `try` body is modelled. -/
def ai_parse_response (response topic : List Char) : GeneratedContent :=
  aiDefaults response (aiCore response topic)

/-- The initial result dict of `MultiCategoryGenerator._parse_response`:
`cta` and `hashtags` start at fixed defaults, `category` at the requested
category id. -/
def multiInit (topic category : List Char) : GeneratedContent where
  topic := topic
  category := category
  master_storyline := []
  youtube_script := []
  instagram_script := []
  twitter_thread := .list []
  caption := []
  cta := .list [mCta1, mCta2, mCta3]
  hashtags := [hAI, hTech, hInnov, hViral, hTrend]

/-- `if current_section and content: result[current_section] =
'\n'.join(content).strip()` (the generic flush of the multi-category
parser). -/
def multiFlush (st : ParseState) : GeneratedContent :=
  match st.cur with
  | some k =>
    if st.content = [] then st.res
    else setStr st.res k (pyStrip (List.intercalate nl1 st.content))
  | none => st.res

/-- One iteration of the `MultiCategoryGenerator._parse_response` loop over a
line of `response.split('\n')`; markers are matched by substring containment
(`'MASTER_STORYLINE:' in line`), not at the line start. -/
def multiStep (st : ParseState) (line : List Char) : ParseState :=
  if containsSub markSTORY line then
    { st with cur := some .master_storyline
              content := [] }
  else if containsSub markYT line then
    { cur := some .youtube_script
      content := []
      res := multiFlush st }
  else if containsSub markIG line then
    { cur := some .instagram_script
      content := []
      res := multiFlush st }
  else if containsSub markTW line then
    { cur := some .twitter_thread
      content := []
      res := multiFlush st }
  else if containsSub markCAPTION line then
    let res :=
      if st.cur = some SectionKey.twitter_thread ∧ st.content ≠ [] then
        { st.res with twitter_thread := .list (splitSegments (List.intercalate nl1 st.content)) }
      else st.res
    { cur := some .caption
      content := []
      res := res }
  else
    match st.cur with
    | some _ => { st with content := st.content ++ [line] }
    | none => st

/-- The post-loop flush of the last open section of
`MultiCategoryGenerator._parse_response`. -/
def multiLast (st : ParseState) : GeneratedContent :=
  match st.cur with
  | none => st.res
  | some k =>
    if st.content = [] then st.res
    else
      match k with
      | .twitter_thread =>
        { st.res with twitter_thread := .list (splitSegments (List.intercalate nl1 st.content)) }
      | _ => setStr st.res k (pyStrip (List.intercalate nl1 st.content))

/-- The backfill defaults at the end of
`MultiCategoryGenerator._parse_response` (`# Ensure we have something`):
note the 300-character storyline prefix, against 500 in the single-category
parser. -/
def mFillStory (response : List Char) (r : GeneratedContent) : GeneratedContent :=
  if r.master_storyline = [] then { r with master_storyline := response.take 300 } else r

/-- `if not result['twitter_thread']: result['twitter_thread'] = [response[:280]]`. -/
def mFillThread (response : List Char) (r : GeneratedContent) : GeneratedContent :=
  if r.twitter_thread.falsy then { r with twitter_thread := .list [response.take 280] } else r

/-- The two backfill defaults of `MultiCategoryGenerator._parse_response`,
in source order. -/
def multiDefaults (response : List Char) (r : GeneratedContent) : GeneratedContent :=
  mFillThread response (mFillStory response r)

/-- The marker-scanning loop of `MultiCategoryGenerator._parse_response`
before the backfill defaults. -/
def multiCore (response topic category : List Char) : GeneratedContent :=
  multiLast (List.foldl multiStep ⟨none, [], multiInit topic category⟩ (pySplitOn nl1 response))

/-- `MultiCategoryGenerator._parse_response(response, topic, category)`. -/
def multi_parse_response (response topic category : List Char) : GeneratedContent :=
  multiDefaults response (multiCore response topic category)

/-- The category-id keys of `MultiCategoryGenerator.CATEGORIES`, in dict
insertion order (the display-name values are only used for logging). -/
def CATEGORIES : List (List Char) :=
  [catNewTool, catTutorial, catTrendModel, catNews, catGithub, catEngage]

/-- The body of the `for category_id, category_name in CATEGORIES.items()`
loop of `generate_all`: issue one completion request (modelled by the
`oracle`) and append the parsed result when the response is truthy. -/
def genStep (topic : List Char) (oracle : List Char → Option (List Char))
    (results : List GeneratedContent) (cid : List Char) : List GeneratedContent :=
  match oracle cid with
  | some response =>
    if response ≠ [] then results ++ [multi_parse_response response topic cid] else results
  | none => results

/-- `MultiCategoryGenerator.generate_all(topic, ...)`, with the completion
service modelled as an oracle from category id to the optional response text
of that category request (prompt construction and search enrichment do not
affect the collected results beyond the response text itself). -/
def generate_all (topic : List Char) (oracle : List Char → Option (List Char)) :
    List GeneratedContent :=
  List.foldl (genStep topic oracle) [] CATEGORIES

def errNoService : List Char := "AI service not available. Check OPENROUTER_API_KEY in .env".data
def errNoContent : List Char := "Failed to generate content from AI".data

/-- `AIContentGenerator.generate(topic, ...)`: the search and completion
collaborators are modelled by the `response` the completion service returns;
a `raise` is modelled as `Except.error` with the raised message.  An absent
or empty response raises `Failed to generate content from AI`. -/
def ai_generate (topic : List Char) (ai_available : Bool) (response : Option (List Char)) :
    Except (List Char) GeneratedContent :=
  if ai_available = false then Except.error errNoService
  else
    match response with
    | none => Except.error errNoContent
    | some r => if r = [] then Except.error errNoContent else Except.ok (ai_parse_response r topic)

/-! ### Helper lemmas about the Python string primitives -/

lemma dropWhile_eq_self_of_prefixOf {p : Char → Bool} {m mp : List Char}
    (hm : List.dropWhile p m = m) (hp : mp <+: m) :
    List.dropWhile p mp = mp := by
  cases mp with
  | nil => simp
  | cons a tl =>
    obtain ⟨t, rfl⟩ := hp
    rw [List.cons_append] at hm
    rw [List.dropWhile_cons] at hm ⊢
    by_cases hpa : p a = true
    · rw [if_pos hpa] at hm
      have hlen := congrArg List.length hm
      have hle := (List.dropWhile_suffix (l := tl ++ t) p).length_le
      simp [List.length_append] at hlen hle
      omega
    · simp [hpa]

lemma pyStrip_idem (s : List Char) : pyStrip (pyStrip s) = pyStrip s := by
  unfold pyStrip
  rw [dropWhile_eq_self_of_prefixOf (List.dropWhile_idempotent _ _) (List.rdropWhile_prefix _ _),
    List.rdropWhile_idempotent]

lemma pyStrip_ne_nil_of_mem_splitSegments {s t : List Char} (ht : t ∈ splitSegments s) :
    pyStrip t = t ∧ t ≠ [] := by
  unfold splitSegments at ht
  obtain ⟨u, hu, rfl⟩ := List.mem_map.mp ht
  have hmem := List.mem_filter.mp hu
  refine ⟨pyStrip_idem u, ?_⟩
  intro hnil
  rw [hnil] at hmem
  simp at hmem

/-! ### Helper lemmas about the result-dict slots -/

lemma setStr_topic (r : GeneratedContent) (k : SectionKey) (v : List Char) :
    (setStr r k v).topic = r.topic := by
  cases k <;> rfl

lemma setStr_category (r : GeneratedContent) (k : SectionKey) (v : List Char) :
    (setStr r k v).category = r.category := by
  cases k <;> rfl

lemma setStr_hashtags (r : GeneratedContent) (k : SectionKey) (v : List Char) :
    (setStr r k v).hashtags = r.hashtags := by
  cases k <;> rfl

lemma setStr_cta_of_ne (r : GeneratedContent) (k : SectionKey) (v : List Char)
    (hk : k ≠ SectionKey.cta) : (setStr r k v).cta = r.cta := by
  cases k <;> first | rfl | exact absurd rfl hk


/-! ### Behaviour of the backfill defaults -/

lemma aiFillThread_master (response : List Char) (r : GeneratedContent) :
    (aiFillThread response r).master_storyline = r.master_storyline := by
  unfold aiFillThread; split <;> rfl

lemma aiFillCta_master (r : GeneratedContent) :
    (aiFillCta r).master_storyline = r.master_storyline := by
  unfold aiFillCta; split <;> rfl

lemma aiFillHashtags_master (r : GeneratedContent) :
    (aiFillHashtags r).master_storyline = r.master_storyline := by
  unfold aiFillHashtags; split <;> rfl

lemma aiDefaults_master (response : List Char) (r : GeneratedContent) :
    (aiDefaults response r).master_storyline =
      if r.master_storyline = [] then response.take 500 else r.master_storyline := by
  unfold aiDefaults
  rw [aiFillHashtags_master, aiFillCta_master, aiFillThread_master]
  unfold aiFillStory
  split <;> rfl

lemma aiFillCta_thread (r : GeneratedContent) :
    (aiFillCta r).twitter_thread = r.twitter_thread := by
  unfold aiFillCta; split <;> rfl

lemma aiFillHashtags_thread (r : GeneratedContent) :
    (aiFillHashtags r).twitter_thread = r.twitter_thread := by
  unfold aiFillHashtags; split <;> rfl

lemma aiFillThread_falsy (response : List Char) (r : GeneratedContent) :
    (aiFillThread response r).twitter_thread.falsy = false := by
  unfold aiFillThread
  split <;> simp_all [PyVal.falsy]

lemma aiDefaults_thread_falsy (response : List Char) (r : GeneratedContent) :
    (aiDefaults response r).twitter_thread.falsy = false := by
  unfold aiDefaults
  rw [aiFillHashtags_thread, aiFillCta_thread, aiFillThread_falsy]

lemma aiFillHashtags_cta (r : GeneratedContent) :
    (aiFillHashtags r).cta = r.cta := by
  unfold aiFillHashtags; split <;> rfl

lemma aiFillCta_falsy (r : GeneratedContent) :
    (aiFillCta r).cta.falsy = false := by
  unfold aiFillCta
  split <;> simp_all [PyVal.falsy]

lemma aiDefaults_cta_falsy (response : List Char) (r : GeneratedContent) :
    (aiDefaults response r).cta.falsy = false := by
  unfold aiDefaults
  rw [aiFillHashtags_cta, aiFillCta_falsy]

lemma aiFillHashtags_ne (r : GeneratedContent) :
    (aiFillHashtags r).hashtags ≠ [] := by
  unfold aiFillHashtags
  split <;> simp_all [hAI]

lemma aiDefaults_hashtags_ne (response : List Char) (r : GeneratedContent) :
    (aiDefaults response r).hashtags ≠ [] := by
  unfold aiDefaults
  exact aiFillHashtags_ne _

lemma mFillThread_master (response : List Char) (r : GeneratedContent) :
    (mFillThread response r).master_storyline = r.master_storyline := by
  unfold mFillThread; split <;> rfl

lemma multiDefaults_master (response : List Char) (r : GeneratedContent) :
    (multiDefaults response r).master_storyline =
      if r.master_storyline = [] then response.take 300 else r.master_storyline := by
  unfold multiDefaults
  rw [mFillThread_master]
  unfold mFillStory
  split <;> rfl

lemma mFillThread_falsy (response : List Char) (r : GeneratedContent) :
    (mFillThread response r).twitter_thread.falsy = false := by
  unfold mFillThread
  split <;> simp_all [PyVal.falsy]

lemma multiDefaults_thread_falsy (response : List Char) (r : GeneratedContent) :
    (multiDefaults response r).twitter_thread.falsy = false := by
  unfold multiDefaults
  exact mFillThread_falsy _ _

lemma mFillStory_cta (response : List Char) (r : GeneratedContent) :
    (mFillStory response r).cta = r.cta := by
  unfold mFillStory; split <;> rfl

lemma mFillThread_cta (response : List Char) (r : GeneratedContent) :
    (mFillThread response r).cta = r.cta := by
  unfold mFillThread; split <;> rfl

lemma multiDefaults_cta (response : List Char) (r : GeneratedContent) :
    (multiDefaults response r).cta = r.cta := by
  unfold multiDefaults
  rw [mFillThread_cta, mFillStory_cta]

lemma mFillStory_hashtags (response : List Char) (r : GeneratedContent) :
    (mFillStory response r).hashtags = r.hashtags := by
  unfold mFillStory; split <;> rfl

lemma mFillThread_hashtags (response : List Char) (r : GeneratedContent) :
    (mFillThread response r).hashtags = r.hashtags := by
  unfold mFillThread; split <;> rfl

lemma multiDefaults_hashtags (response : List Char) (r : GeneratedContent) :
    (multiDefaults response r).hashtags = r.hashtags := by
  unfold multiDefaults
  rw [mFillThread_hashtags, mFillStory_hashtags]

lemma mFillStory_category (response : List Char) (r : GeneratedContent) :
    (mFillStory response r).category = r.category := by
  unfold mFillStory; split <;> rfl

lemma mFillThread_category (response : List Char) (r : GeneratedContent) :
    (mFillThread response r).category = r.category := by
  unfold mFillThread; split <;> rfl

lemma multiDefaults_category (response : List Char) (r : GeneratedContent) :
    (multiDefaults response r).category = r.category := by
  unfold multiDefaults
  rw [mFillThread_category, mFillStory_category]

lemma mFillStory_topic (response : List Char) (r : GeneratedContent) :
    (mFillStory response r).topic = r.topic := by
  unfold mFillStory; split <;> rfl

lemma mFillThread_topic (response : List Char) (r : GeneratedContent) :
    (mFillThread response r).topic = r.topic := by
  unfold mFillThread; split <;> rfl

lemma multiDefaults_topic (response : List Char) (r : GeneratedContent) :
    (multiDefaults response r).topic = r.topic := by
  unfold multiDefaults
  rw [mFillThread_topic, mFillStory_topic]

/-! ### Invariants of the multi-category parser loop -/

lemma multiFlush_category (st : ParseState) :
    (multiFlush st).category = st.res.category := by
  unfold multiFlush
  match st.cur with
  | none => rfl
  | some k => dsimp only; split; rfl; exact setStr_category _ _ _

lemma multiFlush_topic (st : ParseState) :
    (multiFlush st).topic = st.res.topic := by
  unfold multiFlush
  match st.cur with
  | none => rfl
  | some k => dsimp only; split; rfl; exact setStr_topic _ _ _

lemma multiFlush_hashtags (st : ParseState) :
    (multiFlush st).hashtags = st.res.hashtags := by
  unfold multiFlush
  match st.cur with
  | none => rfl
  | some k => dsimp only; split; rfl; exact setStr_hashtags _ _ _

lemma multiFlush_cta (st : ParseState) (h : st.cur ≠ some SectionKey.cta) :
    (multiFlush st).cta = st.res.cta := by
  unfold multiFlush
  match hcur : st.cur with
  | none => rfl
  | some k =>
    dsimp only
    split
    · rfl
    · refine setStr_cta_of_ne _ _ _ ?_
      intro hk
      rw [hk] at hcur
      exact h hcur

/-- The joint invariant preserved by every iteration of the multi-category
parser loop: `current_section` is never the CTA key (no branch assigns it),
and the `category`, `topic`, `cta` and `hashtags` slots keep their initial
values. -/
def MultiInv (st : ParseState) (topic category : List Char) : Prop :=
  st.cur ≠ some SectionKey.cta ∧
  st.res.category = category ∧
  st.res.topic = topic ∧
  st.res.cta = PyVal.list [mCta1, mCta2, mCta3] ∧
  st.res.hashtags = [hAI, hTech, hInnov, hViral, hTrend]

lemma multiStep_inv {st : ParseState} {topic category : List Char}
    (h : MultiInv st topic category) (line : List Char) :
    MultiInv (multiStep st line) topic category := by
  obtain ⟨hcur, hcat, htop, hcta, hhash⟩ := h
  unfold multiStep
  split
  · exact ⟨by simp, hcat, htop, hcta, hhash⟩
  · split
    · exact ⟨by simp, by rw [multiFlush_category]; exact hcat,
        by rw [multiFlush_topic]; exact htop,
        by rw [multiFlush_cta _ hcur]; exact hcta,
        by rw [multiFlush_hashtags]; exact hhash⟩
    · split
      · exact ⟨by simp, by rw [multiFlush_category]; exact hcat,
          by rw [multiFlush_topic]; exact htop,
          by rw [multiFlush_cta _ hcur]; exact hcta,
          by rw [multiFlush_hashtags]; exact hhash⟩
      · split
        · exact ⟨by simp, by rw [multiFlush_category]; exact hcat,
            by rw [multiFlush_topic]; exact htop,
            by rw [multiFlush_cta _ hcur]; exact hcta,
            by rw [multiFlush_hashtags]; exact hhash⟩
        · split
          · refine ⟨by simp, ?_, ?_, ?_, ?_⟩ <;> dsimp only <;> split <;>
              simp_all
          · split
            · exact ⟨hcur, hcat, htop, hcta, hhash⟩
            · exact ⟨hcur, hcat, htop, hcta, hhash⟩

lemma multiFold_inv {st : ParseState} {topic category : List Char}
    (h : MultiInv st topic category) (lines : List (List Char)) :
    MultiInv (List.foldl multiStep st lines) topic category := by
  induction lines generalizing st with
  | nil => exact h
  | cons l ls ih => exact ih (multiStep_inv h l)

lemma multiLast_fields {st : ParseState} {topic category : List Char}
    (h : MultiInv st topic category) :
    (multiLast st).category = category ∧ (multiLast st).topic = topic ∧
    (multiLast st).cta = PyVal.list [mCta1, mCta2, mCta3] ∧
    (multiLast st).hashtags = [hAI, hTech, hInnov, hViral, hTrend] := by
  obtain ⟨hcur, hcat, htop, hcta, hhash⟩ := h
  unfold multiLast
  match hc : st.cur with
  | none => exact ⟨hcat, htop, hcta, hhash⟩
  | some k =>
    dsimp only
    split
    · exact ⟨hcat, htop, hcta, hhash⟩
    · match k with
      | .twitter_thread => exact ⟨hcat, htop, hcta, hhash⟩
      | .master_storyline =>
        exact ⟨by rw [setStr_category]; exact hcat, by rw [setStr_topic]; exact htop,
          by rw [setStr_cta_of_ne _ _ _ (by simp)]; exact hcta,
          by rw [setStr_hashtags]; exact hhash⟩
      | .youtube_script =>
        exact ⟨by rw [setStr_category]; exact hcat, by rw [setStr_topic]; exact htop,
          by rw [setStr_cta_of_ne _ _ _ (by simp)]; exact hcta,
          by rw [setStr_hashtags]; exact hhash⟩
      | .instagram_script =>
        exact ⟨by rw [setStr_category]; exact hcat, by rw [setStr_topic]; exact htop,
          by rw [setStr_cta_of_ne _ _ _ (by simp)]; exact hcta,
          by rw [setStr_hashtags]; exact hhash⟩
      | .caption =>
        exact ⟨by rw [setStr_category]; exact hcat, by rw [setStr_topic]; exact htop,
          by rw [setStr_cta_of_ne _ _ _ (by simp)]; exact hcta,
          by rw [setStr_hashtags]; exact hhash⟩
      | .cta =>
        rw [hc] at hcur
        exact absurd rfl hcur

lemma multiCore_fields (response topic category : List Char) :
    (multiCore response topic category).category = category ∧
    (multiCore response topic category).topic = topic ∧
    (multiCore response topic category).cta = PyVal.list [mCta1, mCta2, mCta3] ∧
    (multiCore response topic category).hashtags = [hAI, hTech, hInnov, hViral, hTrend] := by
  unfold multiCore
  refine multiLast_fields (multiFold_inv ?_ _)
  exact ⟨by simp, rfl, rfl, rfl, rfl⟩

lemma multiParse_fields (response topic category : List Char) :
    (multi_parse_response response topic category).category = category ∧
    (multi_parse_response response topic category).topic = topic ∧
    (multi_parse_response response topic category).cta = PyVal.list [mCta1, mCta2, mCta3] ∧
    (multi_parse_response response topic category).hashtags = [hAI, hTech, hInnov, hViral, hTrend] := by
  obtain ⟨h1, h2, h3, h4⟩ := multiCore_fields response topic category
  unfold multi_parse_response
  rw [multiDefaults_category, multiDefaults_topic, multiDefaults_cta, multiDefaults_hashtags]
  exact ⟨h1, h2, h3, h4⟩

/-! ### No-marker fallback behaviour -/

/-- The eight markers recognised by `AIContentGenerator._parse_response`. -/
def MARKERS : List (List Char) :=
  [markCATEGORY, markSTORY, markYT, markIG, markTW, markCAPTION, markCTA, markHASH]

/-- The parser finds zero recognised section markers: no paragraph of
`response.split('\n\n')` starts, after stripping, with any marker. -/
def NoMarkers (response : List Char) : Prop :=
  ∀ b ∈ pySplitOn nl2 response, ∀ m ∈ MARKERS, m.isPrefixOf (pyStrip b) = false

instance (response : List Char) : Decidable (NoMarkers response) :=
  inferInstanceAs (Decidable (∀ b ∈ pySplitOn nl2 response, ∀ m ∈ MARKERS,
    m.isPrefixOf (pyStrip b) = false))

lemma aiStep_noMark {st : ParseState} {b : List Char} (hcur : st.cur = none)
    (h : ∀ m ∈ MARKERS, m.isPrefixOf (pyStrip b) = false) :
    aiStep st b = st := by
  have h1 := h markCATEGORY (by simp [MARKERS])
  have h2 := h markSTORY (by simp [MARKERS])
  have h3 := h markYT (by simp [MARKERS])
  have h4 := h markIG (by simp [MARKERS])
  have h5 := h markTW (by simp [MARKERS])
  have h6 := h markCAPTION (by simp [MARKERS])
  have h7 := h markCTA (by simp [MARKERS])
  have h8 := h markHASH (by simp [MARKERS])
  unfold aiStep
  simp only [h1, h2, h3, h4, h5, h6, h7, h8, Bool.false_eq_true, if_false, hcur]

lemma aiFold_noMark {blocks : List (List Char)} {st : ParseState} (hcur : st.cur = none)
    (h : ∀ b ∈ blocks, ∀ m ∈ MARKERS, m.isPrefixOf (pyStrip b) = false) :
    List.foldl aiStep st blocks = st := by
  induction blocks with
  | nil => rfl
  | cons b bs ih =>
    rw [List.foldl_cons, aiStep_noMark hcur (h b (by simp))]
    exact ih (fun x hx m hm => h x (by simp [hx]) m hm)

/-- The record produced by the single-category parser when it recognises no
marker: every field is a backfill default. -/
def aiFallbackRecord (response topic : List Char) : GeneratedContent where
  topic := topic
  category := catNewTool
  master_storyline := response.take 500
  youtube_script := []
  instagram_script := []
  twitter_thread := .list [response.take 280]
  caption := []
  cta := .list [aiCta1, aiCta2, aiCta3]
  hashtags := [hAI, hTech, hInnov]

lemma aiParse_noMarkers {response : List Char} (topic : List Char) (h : NoMarkers response) :
    ai_parse_response response topic = aiFallbackRecord response topic := by
  unfold ai_parse_response aiCore
  rw [aiFold_noMark rfl h]
  rfl

/-- The five markers recognised by `MultiCategoryGenerator._parse_response`. -/
def MULTI_MARKERS : List (List Char) :=
  [markSTORY, markYT, markIG, markTW, markCAPTION]

/-- The multi-category parser finds zero recognised markers: no line of
`response.split('\n')` contains any of its five markers as a substring. -/
def NoMarkersMulti (response : List Char) : Prop :=
  ∀ l ∈ pySplitOn nl1 response, ∀ m ∈ MULTI_MARKERS, containsSub m l = false

instance (response : List Char) : Decidable (NoMarkersMulti response) :=
  inferInstanceAs (Decidable (∀ l ∈ pySplitOn nl1 response, ∀ m ∈ MULTI_MARKERS,
    containsSub m l = false))

lemma multiStep_noMark {st : ParseState} {l : List Char} (hcur : st.cur = none)
    (h : ∀ m ∈ MULTI_MARKERS, containsSub m l = false) :
    multiStep st l = st := by
  have h1 := h markSTORY (by simp [MULTI_MARKERS])
  have h2 := h markYT (by simp [MULTI_MARKERS])
  have h3 := h markIG (by simp [MULTI_MARKERS])
  have h4 := h markTW (by simp [MULTI_MARKERS])
  have h5 := h markCAPTION (by simp [MULTI_MARKERS])
  unfold multiStep
  simp only [h1, h2, h3, h4, h5, Bool.false_eq_true, if_false, hcur]

lemma multiFold_noMark {lines : List (List Char)} {st : ParseState} (hcur : st.cur = none)
    (h : ∀ l ∈ lines, ∀ m ∈ MULTI_MARKERS, containsSub m l = false) :
    List.foldl multiStep st lines = st := by
  induction lines with
  | nil => rfl
  | cons l ls ih =>
    rw [List.foldl_cons, multiStep_noMark hcur (h l (by simp))]
    exact ih (fun x hx m hm => h x (by simp [hx]) m hm)

lemma multiCore_noMarkers {response : List Char} (topic category : List Char)
    (h : NoMarkersMulti response) :
    multiCore response topic category = multiInit topic category := by
  unfold multiCore
  rw [multiFold_noMark rfl h]
  rfl

/-! ### The orchestrator loop -/

/-- The per-category outcome of one loop iteration of `generate_all`: the
parsed record when the response is truthy, nothing otherwise. -/
def genPick (topic : List Char) (oracle : List Char → Option (List Char))
    (cid : List Char) : Option GeneratedContent :=
  match oracle cid with
  | some response =>
    if response ≠ [] then some (multi_parse_response response topic cid) else none
  | none => none

/-- Python truthiness of a completion response: present and non-empty. -/
def respGood : Option (List Char) → Bool
  | none => false
  | some r => !r.isEmpty

lemma genFold_eq (topic : List Char) (oracle : List Char → Option (List Char))
    (cats : List (List Char)) (acc : List GeneratedContent) :
    List.foldl (genStep topic oracle) acc cats = acc ++ cats.filterMap (genPick topic oracle) := by
  induction cats generalizing acc with
  | nil => simp
  | cons c cs ih =>
    rw [List.foldl_cons, List.filterMap_cons]
    cases hc : oracle c with
    | none =>
      rw [show genStep topic oracle acc c = acc by unfold genStep; rw [hc],
        show genPick topic oracle c = none by unfold genPick; rw [hc]]
      exact ih acc
    | some r =>
      by_cases hr : r = []
      · rw [show genStep topic oracle acc c = acc by unfold genStep; rw [hc]; simp [hr],
          show genPick topic oracle c = none by unfold genPick; rw [hc]; simp [hr]]
        exact ih acc
      · rw [show genStep topic oracle acc c = acc ++ [multi_parse_response r topic c] by
            unfold genStep; rw [hc]; simp [hr],
          show genPick topic oracle c = some (multi_parse_response r topic c) by
            unfold genPick; rw [hc]; simp [hr]]
        rw [ih, List.append_assoc]
        rfl

lemma generate_all_eq (topic : List Char) (oracle : List Char → Option (List Char)) :
    generate_all topic oracle = CATEGORIES.filterMap (genPick topic oracle) := by
  unfold generate_all
  rw [genFold_eq]
  rfl

lemma map_category_filterMap (topic : List Char) (oracle : List Char → Option (List Char))
    (cats : List (List Char)) :
    (cats.filterMap (genPick topic oracle)).map GeneratedContent.category =
      cats.filter (fun cid => respGood (oracle cid)) := by
  induction cats with
  | nil => rfl
  | cons c cs ih =>
    rw [List.filterMap_cons, List.filter_cons]
    cases hc : oracle c with
    | none =>
      rw [show genPick topic oracle c = none by unfold genPick; rw [hc]]
      simp only [respGood, hc]
      rw [if_neg (by simp)]
      exact ih
    | some r =>
      by_cases hr : r = []
      · rw [show genPick topic oracle c = none by unfold genPick; rw [hc]; simp [hr]]
        simp only [respGood, hc, hr]
        rw [if_neg (by simp)]
        exact ih
      · rw [show genPick topic oracle c = some (multi_parse_response r topic c) by
            unfold genPick; rw [hc]; simp [hr]]
        simp only [respGood, hc]
        rw [if_pos (by simp [hr]), List.map_cons, (multiParse_fields r topic c).1, ih]
        rfl

/-! ### Concrete inputs used by the claims -/

def topicT : List Char := "AI tools".data
def helloL : List Char := "hello".data
def helloCap : List Char := "Hello".data
def helloWorldL : List Char := "Hello world".data

/-- 501 letters: a marker-free response longer than the 500-character
storyline fallback prefix. -/
def rep501 : List Char := List.replicate 501 'a'

/-- 400 letters: a marker-free response longer than the 300-character
storyline fallback prefix of the multi-category parser. -/
def raw400 : List Char := List.replicate 400 'a'

/-- The exact raw text of the C2 scenario. -/
def c2input : List Char :=
  "CATEGORY: trending_ai_model\n\nMASTER_STORYLINE:\nHello world\n\nHASHTAGS:\n#AI #Tech".data

/-- A response that names a category other than the requested one. -/
def c5resp : List Char := "CATEGORY: trending_ai_model\n\nMASTER_STORYLINE:\nHello".data

/-- A line that contains a marker keyword away from its start. -/
def c8line : List Char := "xx MASTER_STORYLINE: yy".data

/-- A single-category-parser response whose only marker occurrence is mid-paragraph. -/
def c8ai : List Char := "xx MASTER_STORYLINE: yy\n\nHello".data

/-- A multi-category-parser response whose only marker occurrence is mid-line. -/
def c8multi : List Char := "A\nxx MASTER_STORYLINE: yy\nHello".data

/-- The section text of the C9 scenario. -/
def c9sect : List Char := "A\n---\n\nB\n---\nC".data

/-- A response carrying the C9 section text as its TWITTER_THREAD section. -/
def c9resp : List Char := "TWITTER_THREAD:\n\nA\n---\n\nB\n---\nC".data

def strA : List Char := "A".data
def strB : List Char := "B".data
def strC : List Char := "C".data

/-! ### Claims -/

set_option maxRecDepth 10000 in
/-- C1, counterexample: the 501-character marker-free response is parsed to a
`master_storyline` that is a strict 500-character prefix of the input, not
the full input text as the claim states. -/
theorem C1_counterexample :
    NoMarkers rep501 ∧ (ai_parse_response rep501 topicT).master_storyline ≠ rep501 := by
  have h : NoMarkers rep501 := by decide
  refine ⟨h, ?_⟩
  rw [aiParse_noMarkers topicT h]
  intro heq
  have hlen := congrArg List.length heq
  simp only [aiFallbackRecord, rep501, List.length_take, List.length_replicate] at hlen
  omega

/-- C1 (amended): for every raw text in which the parser finds zero
recognized section markers, `parse` returns a record whose
`master_storyline` equals the first 500 characters of the raw input (hence
the full input exactly when the input has at most 500 characters), and whose
`twitter_thread`, `cta` and `hashtags` are non-empty. -/
theorem C1_zero_marker_fallback (response topic : List Char) (h : NoMarkers response) :
    (ai_parse_response response topic).master_storyline = response.take 500 ∧
    (ai_parse_response response topic).twitter_thread.falsy = false ∧
    (ai_parse_response response topic).cta.falsy = false ∧
    (ai_parse_response response topic).hashtags ≠ [] := by
  rw [aiParse_noMarkers topic h]
  exact ⟨rfl, rfl, rfl, by simp [aiFallbackRecord, hAI]⟩

/-- C1, witness: the marker-free input `hello` satisfies the amended claim. -/
theorem C1_witness :
    NoMarkers helloL ∧
    ((ai_parse_response helloL topicT).master_storyline = helloL.take 500 ∧
     (ai_parse_response helloL topicT).twitter_thread.falsy = false ∧
     (ai_parse_response helloL topicT).cta.falsy = false ∧
     (ai_parse_response helloL topicT).hashtags ≠ []) :=
  ⟨by decide, C1_zero_marker_fallback helloL topicT (by decide)⟩

/-- C2, counterexample: on the exact scenario input the parsed
`master_storyline` is not the buffered storyline `Hello world`. -/
theorem C2_counterexample :
    (ai_parse_response c2input topicT).master_storyline ≠ helloWorldL := by decide

/-- C2 (amended): on the scenario raw text the parser returns
`category = trending_ai_model` and `hashtags = [#AI, #Tech]` with
`twitter_thread` and `cta` non-empty, but the HASHTAGS branch flushes only a
pending CTA buffer, so the buffered storyline is discarded and
`master_storyline` falls back to the first 500 characters of the raw
response (here the whole raw text); `twitter_thread` is the 280-character
prefix default. -/
theorem C2_scenario_actual :
    (ai_parse_response c2input topicT).category = catTrendModel ∧
    (ai_parse_response c2input topicT).hashtags = [hAI, hTech] ∧
    (ai_parse_response c2input topicT).master_storyline = c2input ∧
    (ai_parse_response c2input topicT).twitter_thread = PyVal.list [c2input] ∧
    (ai_parse_response c2input topicT).cta = PyVal.list [aiCta1, aiCta2, aiCta3] := by
  decide

/-- C3: for every input raw text (the empty string included) both parsers
return records whose `twitter_thread`, `cta` and `hashtags` are non-empty. -/
theorem C3_sequences_nonempty (response topic category : List Char) :
    ((ai_parse_response response topic).twitter_thread.falsy = false ∧
     (ai_parse_response response topic).cta.falsy = false ∧
     (ai_parse_response response topic).hashtags ≠ []) ∧
    ((multi_parse_response response topic category).twitter_thread.falsy = false ∧
     (multi_parse_response response topic category).cta.falsy = false ∧
     (multi_parse_response response topic category).hashtags ≠ []) := by
  obtain ⟨-, -, h3, h4⟩ := multiParse_fields response topic category
  refine ⟨⟨?_, ?_, ?_⟩, ?_, ?_, ?_⟩
  · unfold ai_parse_response; exact aiDefaults_thread_falsy _ _
  · unfold ai_parse_response; exact aiDefaults_cta_falsy _ _
  · unfold ai_parse_response; exact aiDefaults_hashtags_ne _ _
  · unfold multi_parse_response; exact multiDefaults_thread_falsy _ _
  · rw [h3]; rfl
  · rw [h4]; simp [hAI]

/-- C3, witness: the empty-string response satisfies the non-emptiness
invariant for both parsers. -/
theorem C3_witness :
    (((ai_parse_response [] topicT).twitter_thread.falsy = false ∧
      (ai_parse_response [] topicT).cta.falsy = false ∧
      (ai_parse_response [] topicT).hashtags ≠ []) ∧
     ((multi_parse_response [] topicT catNewTool).twitter_thread.falsy = false ∧
      (multi_parse_response [] topicT catNewTool).cta.falsy = false ∧
      (multi_parse_response [] topicT catNewTool).hashtags ≠ [])) :=
  C3_sequences_nonempty [] topicT catNewTool

/-- C4: for every completion oracle, `generate_all` returns at most six
records — exactly one per category whose request returned a truthy response —
and the categories of the returned records follow the fixed enumeration
order of `CATEGORIES`; failed or empty responses only omit their category,
and the function is total (no error outcome). -/
theorem C4_fanout_order (topic : List Char) (oracle : List Char → Option (List Char)) :
    (generate_all topic oracle).length ≤ 6 ∧
    (generate_all topic oracle).map GeneratedContent.category =
      CATEGORIES.filter (fun cid => respGood (oracle cid)) := by
  rw [generate_all_eq, map_category_filterMap]
  refine ⟨?_, rfl⟩
  calc (List.filterMap (genPick topic oracle) CATEGORIES).length
      ≤ CATEGORIES.length := List.length_filterMap_le _ _
    _ = 6 := rfl

/-- C5, counterexample: for a response that explicitly carries
`CATEGORY: trending_ai_model` while the orchestrator requested
`new_tool_intro`, the returned record still has the requested category —
the parsed CATEGORY value does not overwrite it. -/
theorem C5_counterexample :
    containsSub markCATEGORY c5resp = true ∧
    containsSub catTrendModel c5resp = true ∧
    (multi_parse_response c5resp topicT catNewTool).category = catNewTool ∧
    catNewTool ≠ catTrendModel := by decide

/-- C5 (amended): the multi-category parser used by `generate_all` never
extracts a CATEGORY section from the response text; the returned record's
`category` always equals the category the orchestrator requested. -/
theorem C5_category_never_overwritten (response topic category : List Char) :
    (multi_parse_response response topic category).category = category :=
  (multiParse_fields response topic category).1

/-- C6, counterexample: on an absent completion response the single-category
`generate` raises `Failed to generate content from AI` instead of resolving
via skip or parser fallback. -/
theorem C6_counterexample :
    ai_generate topicT true none = Except.error errNoContent := rfl

/-- C6 (amended): for every topic, an absent or empty completion response
makes the single-category `generate` raise an error (which the API surfaces
as a failure); only the multi-category `generate_all` resolves absent
responses by skipping the category. -/
theorem C6_absent_response_raises (topic : List Char) :
    ai_generate topic true none = Except.error errNoContent ∧
    ai_generate topic true (some []) = Except.error errNoContent ∧
    generate_all topic (fun _ => none) = [] :=
  ⟨rfl, rfl, rfl⟩

set_option maxRecDepth 10000 in
/-- C7, counterexample: the marker-free 400-character response leaves the
multi-category parse with an empty storyline, and the returned
`master_storyline` is the 300-character prefix, not the first 500 characters
of the raw response. -/
theorem C7_counterexample :
    (multiCore raw400 topicT catNewTool).master_storyline = [] ∧
    (multi_parse_response raw400 topicT catNewTool).master_storyline ≠ raw400.take 500 := by
  have h : NoMarkersMulti raw400 := by decide
  have hcore := multiCore_noMarkers topicT catNewTool h
  constructor
  · rw [hcore]; rfl
  · unfold multi_parse_response
    rw [hcore, multiDefaults_master,
      show (multiInit topicT catNewTool).master_storyline = [] from rfl, if_pos rfl]
    intro heq
    have hlen := congrArg List.length heq
    simp only [raw400, List.length_take, List.length_replicate] at hlen
    omega

/-- C7 (amended): when parsing leaves `master_storyline` empty, the returned
`master_storyline` is the first 500 characters of the raw response in the
single-category parser, and the first 300 characters in the multi-category
parser. -/
theorem C7_empty_storyline_defaults (response topic category : List Char) :
    ((aiCore response topic).master_storyline = [] →
      (ai_parse_response response topic).master_storyline = response.take 500) ∧
    ((multiCore response topic category).master_storyline = [] →
      (multi_parse_response response topic category).master_storyline = response.take 300) := by
  constructor
  · intro h
    unfold ai_parse_response
    rw [aiDefaults_master, if_pos h]
  · intro h
    unfold multi_parse_response
    rw [multiDefaults_master, if_pos h]

/-- C7, witness: the marker-free input `hello` leaves both storylines empty
and receives the respective prefixes. -/
theorem C7_witness :
    (ai_parse_response helloL topicT).master_storyline = helloL.take 500 ∧
    (multi_parse_response helloL topicT catNewTool).master_storyline = helloL.take 300 :=
  ⟨(C7_empty_storyline_defaults helloL topicT catNewTool).1 (by decide),
   (C7_empty_storyline_defaults helloL topicT catNewTool).2 (by decide)⟩

/-- C8, counterexample: in the multi-category parser a line that merely
contains `MASTER_STORYLINE:` away from its start does open a section — the
following line `Hello` becomes the storyline instead of the 300-character
whole-response fallback that a position-sensitive match would produce. -/
theorem C8_counterexample :
    markSTORY.isPrefixOf (pyStrip c8line) = false ∧
    containsSub markSTORY c8line = true ∧
    (multi_parse_response c8multi topicT catNewTool).master_storyline = helloCap ∧
    (multi_parse_response c8multi topicT catNewTool).master_storyline ≠ c8multi.take 300 := by
  decide

/-- C8 (amended): the single-category parser matches markers only at the
start of a stripped paragraph — a response none of whose stripped paragraphs
starts with a marker (even when markers occur elsewhere in a paragraph) is
parsed entirely by the fallback defaults; the multi-category parser instead
matches markers by substring containment anywhere in a line. -/
theorem C8_ai_position_sensitive (response topic : List Char) (h : NoMarkers response) :
    ai_parse_response response topic = aiFallbackRecord response topic :=
  aiParse_noMarkers topic h

/-- C8, witness: the paragraph `xx MASTER_STORYLINE: yy` contains a marker
but does not start with one, and the single-category parser falls through to
the all-default record. -/
theorem C8_witness :
    NoMarkers c8ai ∧ ai_parse_response c8ai topicT = aiFallbackRecord c8ai topicT :=
  ⟨by decide, C8_ai_position_sensitive c8ai topicT (by decide)⟩

/-- C9: splitting a TWITTER_THREAD/CTA section on `---` trims every segment
and drops segments that are empty after trimming — every returned segment is
trimmed and non-empty; in particular `A\n---\n\nB\n---\nC` yields exactly
`[A, B, C]`, also when it arrives as the TWITTER_THREAD section of a full
response. -/
theorem C9_dash_split (s t : List Char) (ht : t ∈ splitSegments s) :
    (pyStrip t = t ∧ t ≠ []) ∧
    splitSegments c9sect = [strA, strB, strC] ∧
    (ai_parse_response c9resp topicT).twitter_thread = PyVal.list [strA, strB, strC] :=
  ⟨pyStrip_ne_nil_of_mem_splitSegments ht, by decide, by decide⟩

/-- C9, witness: the segment `A` of the scenario input. -/
theorem C9_witness :
    ((pyStrip strA = strA ∧ strA ≠ []) ∧
     splitSegments c9sect = [strA, strB, strC] ∧
     (ai_parse_response c9resp topicT).twitter_thread = PyVal.list [strA, strB, strC]) :=
  C9_dash_split c9sect strA (by decide)

/-- C10: for every response text, topic and category, the multi-category
parser returns the fixed `cta` list `[Follow for more!, Share this!,
Comment below!]` and the fixed `hashtags` list `[#AI, #Tech, #Innovation,
#Viral, #Trending]` — it never extracts CTA or HASHTAGS sections from the
response text. -/
theorem C10_multi_fixed_cta_hashtags (response topic category : List Char) :
    (multi_parse_response response topic category).cta = PyVal.list [mCta1, mCta2, mCta3] ∧
    (multi_parse_response response topic category).hashtags = [hAI, hTech, hInnov, hViral, hTrend] :=
  ⟨(multiParse_fields response topic category).2.2.1,
   (multiParse_fields response topic category).2.2.2⟩
